import Mathlib

/-!
Verification of the data-manager ("Shared Store") and link-loop logic of the
raspberry-pi ROV server, shallowly embedded from `src/utils.py`,
`src/data_manager.py` and `src/server.py`.

Python dictionaries are modelled as association lists, exceptions as an
optional `PyErr` carried next to the state reached at the moment of the
raise, and the logger as a trace of `LogEntry` values.  Exception messages
are abbreviated to stable tags (Python formats live `set` reprs into them,
whose ordering is unspecified); the exception class and raise site are
modelled exactly.
-/

/-- JSON-representable values stored in the tables: Python int, bool or str. -/
inductive Val where
  | int (z : Int)
  | bool (b : Bool)
  | str (s : String)
deriving DecidableEq

/-- Python arithmetic view of a value: bools are ints (True = 1), strings do
not support subtraction (TypeError). -/
def Val.arith : Val → Option Int
  | .int z => some z
  | .bool b => some (if b then 1 else 0)
  | .str _ => none

/-- Exceptions raised by the embedded code. -/
inductive PyErr where
  | attributeError (name : String)
  | keyError (msg : String)
  | typeError
deriving DecidableEq

/-- Severity levels of the `Log` collaborator. -/
inductive LogLevel where
  | debug
  | info
  | warning
  | error
deriving DecidableEq

/-- One emitted log record. -/
structure LogEntry where
  level : LogLevel
  msg : String
deriving DecidableEq

/-- Association-list lookup, modelling Python `d[k]` / `d.get(k)` on a dict. -/
def assocLookup {α β : Type} [DecidableEq α] : List (α × β) → α → Option β
  | [], _ => none
  | (a, b) :: rest, k => if a = k then some b else assocLookup rest k

/-- Association-list store, modelling Python `d[k] = v`: update in place if the
key is present (dicts keep insertion order), append otherwise. -/
def assocSet {α β : Type} [DecidableEq α] : List (α × β) → α → β → List (α × β)
  | [], k, v => [(k, v)]
  | (a, b) :: rest, k, v =>
    if a = k then (k, v) :: rest else (a, b) :: assocSet rest k v

/-- A Store table: one role's key/value document (a Python dict). -/
def Table : Type := List (String × Val)

instance : DecidableEq Table := inferInstanceAs (DecidableEq (List (String × Val)))

/-- `d.keys()`. -/
def Table.keys (t : Table) : List String := t.map Prod.fst

/-- Python `set(xs).issubset(set(ys))`. -/
def keysSubset (xs ys : List String) : Bool := xs.all fun k => ys.contains k

/-- The device enumeration of `utils.py` (`class Device(enum.Enum)`). -/
inductive Device where
  | UNKNOWN
  | SURFACE
  | ARDUINO_O
  | ARDUINO_I
deriving DecidableEq

/-- `Device.<member>.value`. -/
def Device.value : Device → String
  | .UNKNOWN => "UNKNOWN_DEVICE"
  | .SURFACE => "SURFACE"
  | .ARDUINO_O => "A_O"
  | .ARDUINO_I => "A_I"

/-- `Device.<member>.name`. -/
def Device.name : Device → String
  | .UNKNOWN => "UNKNOWN"
  | .SURFACE => "SURFACE"
  | .ARDUINO_O => "ARDUINO_O"
  | .ARDUINO_I => "ARDUINO_I"

/-- Attribute lookup `Device.<s>` on the enum class: `some` for the four
member names declared in `utils.py`, `none` (an `AttributeError`) otherwise.
In particular `Device.ARDUINO_A`, used throughout `data_manager.py`, is not
a member. -/
def Device.attr : String → Option Device
  | "UNKNOWN" => some .UNKNOWN
  | "SURFACE" => some .SURFACE
  | "ARDUINO_O" => some .ARDUINO_O
  | "ARDUINO_I" => some .ARDUINO_I
  | _ => none

/-- `RAMP_RATE` from `utils.py`. -/
def RAMP_RATE : Int := 2

/-- `RAMP_KEYS` from `utils.py`. -/
def RAMP_KEYS : List String :=
  ["T_HFP", "T_HFS", "T_HAP", "T_HAS", "T_VFP", "T_VFS", "T_VAP", "T_VAS", "T_M"]

/-- `THRUSTER_IDLE` from `utils.py`. -/
def THRUSTER_IDLE : Int := 1500

/-- `GRIPPER_IDLE` from `utils.py`. -/
def GRIPPER_IDLE : Int := 1500

/-- `CORD_IDLE` from `utils.py`. -/
def CORD_IDLE : Int := 1500

/-- The `Device.SURFACE` entry of `DEFAULTS`. -/
def surfaceDefaultTbl : Table :=
  [("A_O", .bool false), ("A_I", .bool false), ("S_O", .int 0), ("S_I", .int 0)]

/-- The `Device.ARDUINO_O` entry of `DEFAULTS`. -/
def arduinoODefaultTbl : Table :=
  [("T_HFP", .int THRUSTER_IDLE), ("T_HFS", .int THRUSTER_IDLE),
   ("T_HAP", .int THRUSTER_IDLE), ("T_HAS", .int THRUSTER_IDLE),
   ("T_VFP", .int THRUSTER_IDLE), ("T_VFS", .int THRUSTER_IDLE),
   ("T_VAP", .int THRUSTER_IDLE), ("T_VAS", .int THRUSTER_IDLE),
   ("T_M", .int THRUSTER_IDLE), ("M_G", .int GRIPPER_IDLE), ("M_C", .int CORD_IDLE)]

/-- The `Device.ARDUINO_I` entry of `DEFAULTS`. -/
def arduinoIDefaultTbl : Table := []

/-- `DEFAULTS` from `utils.py`: a dict keyed by the enum members
`SURFACE`, `ARDUINO_O` and `ARDUINO_I` (it has no `ARDUINO_A` entry). -/
def DEFAULTS : List (Device × Table) :=
  [(.SURFACE, surfaceDefaultTbl), (.ARDUINO_O, arduinoODefaultTbl),
   (.ARDUINO_I, arduinoIDefaultTbl)]

/-- The mutable state of a `DataManager`: `self._surface` (an unused empty
dict) and `self._data`, a dict from `Device` to table. -/
structure DMState where
  surface : Table
  data : List (Device × Table)
deriving DecidableEq

namespace DataManager

/-- `DataManager.__init__`: `self._surface = dict()` then the dict display
`{Device.SURFACE: DEFAULTS[Device.SURFACE].copy(),
  Device.ARDUINO_A: DEFAULTS[Device.ARDUINO_A].copy()}`, whose entries are
evaluated left to right; the second key is the attribute lookup
`Device.ARDUINO_A`, which raises `AttributeError` because the enum has no
such member. -/
def init : Except PyErr DMState :=
  match assocLookup DEFAULTS .SURFACE with
  | none => .error (.keyError "missing dict key")
  | some sTbl =>
    match Device.attr "ARDUINO_A" with
    | none => .error (.attributeError "ARDUINO_A")
    | some a =>
      match assocLookup DEFAULTS a with
      | none => .error (.keyError "missing dict key")
      | some aTbl => .ok ⟨[], [(.SURFACE, sTbl), (a, aTbl)]⟩

/-- `DataManager.get`: return the whole table (a `.copy()`) when no args are
passed, else check the requested keys form a subset of the table's keys and
return the dict comprehension over `args`; raises `KeyError` otherwise. -/
def get (st : DMState) (device : Device) (args : List String) : Except PyErr Table :=
  match assocLookup st.data device with
  | none => .error (.keyError "missing dict key")
  | some t =>
    if args.isEmpty then .ok t
    else if ¬ keysSubset args t.keys then
      .error (.keyError "args is not a subset of the data keys")
    else
      .ok (args.foldl (fun acc k =>
        match assocLookup t k with
        | some v => assocSet acc k v
        | none => acc) [])

/-- `DataManager._handle_data_from_surface`: ramp keys step by `RAMP_RATE`
toward the incoming value, other keys are assigned directly — into
`self._data[Device.ARDUINO_A]`, another failing attribute lookup. -/
def handleDataFromSurface (st : DMState) (device : Device) (key : String)
    (value : Val) : DMState × Option PyErr :=
  if RAMP_KEYS.contains key then
    match assocLookup st.data device with
    | none => (st, some (.keyError "missing dict key"))
    | some t =>
      match assocLookup t key with
      | none => (st, some (.keyError "missing dict key"))
      | some cur =>
        match cur.arith, value.arith with
        | some c, some v =>
          let difference := c - v
          if difference > 0 then
            ({ st with data := assocSet st.data device (assocSet t key (.int (c - RAMP_RATE))) }, none)
          else if difference < 0 then
            ({ st with data := assocSet st.data device (assocSet t key (.int (c + RAMP_RATE))) }, none)
          else (st, none)
        | _, _ => (st, some .typeError)
  else
    match Device.attr "ARDUINO_A" with
    | none => (st, some (.attributeError "ARDUINO_A"))
    | some a =>
      match assocLookup st.data a with
      | none => (st, some (.keyError "missing dict key"))
      | some t => ({ st with data := assocSet st.data a (assocSet t key value) }, none)

/-- The `for k, v in kwargs.items()` loop of the surface branch of
`DataManager.set`: each iteration evaluates `k in self._data[Device.ARDUINO_A]`,
whose attribute lookup raises before anything else happens. -/
def surfaceDispatch (st : DMState) : List (String × Val) → DMState × Option PyErr
  | [] => (st, none)
  | (k, v) :: rest =>
    match Device.attr "ARDUINO_A" with
    | none => (st, some (.attributeError "ARDUINO_A"))
    | some a =>
      match assocLookup st.data a with
      | none => (st, some (.keyError "missing dict key"))
      | some t =>
        if t.keys.contains k then
          match handleDataFromSurface st a k v with
          | (st', none) => surfaceDispatch st' rest
          | (st', some e) => (st', some e)
        else
          (st, some (.keyError ("Couldn't find " ++ k ++ " key in any of the Arduino dictionaries")))

/-- `self._data[Device.ARDUINO_A] = DEFAULTS[Device.ARDUINO_A]` (no `.copy()`),
executed by the surface branch when `set_default` is true; the right-hand
side's attribute lookup raises first. -/
def setDefaultArduino (st : DMState) : DMState × Option PyErr :=
  match Device.attr "ARDUINO_A" with
  | none => (st, some (.attributeError "ARDUINO_A"))
  | some a =>
    match assocLookup DEFAULTS a with
    | none => (st, some (.keyError "missing dict key"))
    | some t => ({ st with data := assocSet st.data a t }, none)

/-- The non-surface branch of `DataManager.set` with `set_default` false:
check the kwargs keys against the surface table's key set, then assign each
pair directly into the surface table. -/
def arduinoOverride (st : DMState) (kwargs : List (String × Val)) : DMState × Option PyErr :=
  match assocLookup st.data .SURFACE with
  | none => (st, some (.keyError "missing dict key"))
  | some t =>
    if ¬ keysSubset (kwargs.map Prod.fst) t.keys then
      (st, some (.keyError "kwargs is not a subset of the surface dictionary"))
    else
      let t2 := kwargs.foldl (fun acc kv => assocSet acc kv.1 kv.2) t
      ({ st with data := assocSet st.data .SURFACE t2 }, none)

/-- Result of one `DataManager.set` call: the log records emitted, the state
of the tables when the call returned or raised, and the raised exception if
any. -/
structure SetResult where
  logs : List LogEntry
  state : DMState
  err : Option PyErr
deriving DecidableEq

/-- `DataManager.set`, assembled from the branches above exactly as in the
source: the surface branch first runs the `set_default` assignment (when
requested) and then, unconditionally, the kwargs dispatch loop; the
non-surface branch with `set_default` only logs an error and returns. -/
def set (st : DMState) (from_device : Device) (set_default : Bool)
    (kwargs : List (String × Val)) : SetResult :=
  let logs :=
    [LogEntry.mk .debug ("Setting data manager values from " ++ from_device.name)] ++
      (if set_default then [LogEntry.mk .debug "Setting the values to default"] else [])
  if from_device = .SURFACE then
    if set_default then
      match setDefaultArduino st with
      | (st', some e) => ⟨logs, st', some e⟩
      | (st', none) =>
        match surfaceDispatch st' kwargs with
        | (st'', oe) => ⟨logs, st'', oe⟩
    else
      match surfaceDispatch st kwargs with
      | (st', oe) => ⟨logs, st', oe⟩
  else
    if set_default then
      ⟨logs ++ [LogEntry.mk .error
        ("Setting the default values is only supported for surface, not " ++ from_device.name)],
       st, none⟩
    else
      match arduinoOverride st kwargs with
      | (st', oe) => ⟨logs, st', oe⟩

end DataManager

/-- Decode outcome of one `recv` on the surface socket
(`Server._communicate`): zero bytes (graceful close), bytes that fail
`json.loads` (the variable then still holds the raw, truthy, non-dict
bytes), bytes that decode to a non-dict JSON value, or bytes that decode to
a JSON object with the given pairs. -/
inductive RecvData where
  | empty
  | malformed
  | nonObject
  | object (kvs : List (String × Val))
deriving DecidableEq

/-- Outcome of one iteration of the surface exchange loop: the client closed
the connection (loop exits), a reply was sent (loop continues with the new
store state), or an exception escaped the iteration's inner handlers — it is
uncaught in `_communicate`, so the loop and its thread terminate. -/
inductive SurfaceStep where
  | closed
  | sent (st : DMState) (reply : Table)
  | raised (st : DMState) (e : PyErr)
deriving DecidableEq

namespace Server

/-- The reply tail of the surface loop body: `json.dumps(dm.get(SURFACE))`
sent with `sendall` (the reply is modelled at table level, JSON encoding
being the stdlib's). -/
def sendSnapshot (st : DMState) : SurfaceStep :=
  match DataManager.get st .SURFACE [] with
  | .ok t => .sent st t
  | .error e => .raised st e

/-- One iteration of the body of `Server._communicate`: empty recv breaks the
loop; a decode failure or a non-dict document skips the merge (`if data and
isinstance(data, dict)`); an empty object is falsy and also skipped; a
non-empty object is merged via `dm.set(Device.SURFACE, **data)`, whose
exceptions are caught by none of the iteration's handlers (they catch only
decode and connection errors). A reply is sent whenever no exception was
raised. -/
def communicateStep (st : DMState) (recv : RecvData) : SurfaceStep :=
  match recv with
  | .empty => .closed
  | .malformed => sendSnapshot st
  | .nonObject => sendSnapshot st
  | .object kvs =>
    if kvs.isEmpty then sendSnapshot st
    else
      match DataManager.set st .SURFACE false kvs with
      | ⟨_, st', none⟩ => sendSnapshot st'
      | ⟨_, st', some e⟩ => .raised st' e

end Server

/-- One frame read from the serial line in the streaming phase of
`Arduino._communicate`: a read timeout (empty bytes), bytes that fail JSON
decoding, or a decoded JSON object. -/
inductive SerialFrame where
  | timeout
  | malformed
  | object (kvs : List (String × Val))
deriving DecidableEq

/-- Outcome of one streaming-phase iteration of `Arduino._communicate`:
a protocol violation broke the loop, a snapshot was written back (loop
continues), or an exception escaped the iteration's handlers (which catch
only decode and serial errors) — the loop and its thread terminate. -/
inductive ArduinoStep where
  | protoBreak
  | wrote (st : DMState) (sent : Table)
  | raised (st : DMState) (e : PyErr)
deriving DecidableEq

namespace Arduino

/-- Python `del data["id"]` on an object held as an association list. -/
def delItem (kvs : List (String × Val)) (k : String) : List (String × Val) :=
  kvs.filter fun p => ¬ p.1 = k

/-- The write-back tail of the streaming loop body:
`json.dumps(dm.get(device)) + "\n"` written to the serial port. -/
def writeSnapshot (st : DMState) (device : Device) : ArduinoStep :=
  match DataManager.get st device [] with
  | .ok t => .wrote st t
  | .error e => .raised st e

/-- One iteration of the streaming phase of `Arduino._communicate`, after the
link identified itself as `device`: a timeout clears the output buffer and
skips the merge; a decode failure logs a warning and skips the merge; a
decoded object must carry `"id"` equal to `device.value` or the loop breaks;
otherwise the `"id"` entry is deleted and the rest merged via
`dm.set(device, **data)`, whose exceptions (e.g. `KeyError` for an unknown
key) are caught by no handler in the function — the thread dies. A snapshot
is written whenever no exception was raised and the loop did not break. -/
def communicateStep (st : DMState) (device : Device) (frame : SerialFrame) : ArduinoStep :=
  match frame with
  | .timeout => writeSnapshot st device
  | .malformed => writeSnapshot st device
  | .object kvs =>
    match assocLookup kvs "id" with
    | none => .protoBreak
    | some v =>
      if v = Val.str device.value then
        match DataManager.set st device false (delItem kvs "id") with
        | ⟨_, st', none⟩ => writeSnapshot st' device
        | ⟨_, st', some e⟩ => .raised st' e
      else .protoBreak

end Arduino

/-- A heap of tables, for the object-identity model of `DataManager.get`:
`size` references are live, `mem` gives each one's current contents. -/
structure Heap where
  size : Nat
  mem : Nat → Table

/-- Allocate a new dict holding `t` (Python `dict.copy()` or a dict
comprehension/display): the new reference is `size`. -/
def Heap.alloc (h : Heap) (t : Table) : Nat × Heap :=
  (h.size, ⟨h.size + 1, fun i => if i = h.size then t else h.mem i⟩)

/-- In-place mutation of the dict behind reference `r`. -/
def Heap.write (h : Heap) (r : Nat) (t : Table) : Heap :=
  ⟨h.size, fun i => if i = r then t else h.mem i⟩

/-- `self._data` with its tables held by reference, plus the heap. -/
structure RefState where
  dataRefs : List (Device × Nat)
  heap : Heap

/-- The document a role's table currently holds, if the role is a key of
`self._data`. -/
def RefState.tableAt (st : RefState) (d : Device) : Option Table :=
  (assocLookup st.dataRefs d).map st.heap.mem

/-- Heap sanity: every table reference of `self._data` is live. -/
def RefState.wf (st : RefState) : Prop :=
  ∀ d r, assocLookup st.dataRefs d = some r → r < st.heap.size

namespace DataManager

/-- `DataManager.get` again, at the object level: the no-args branch returns
`self._data[device].copy()` — a freshly allocated dict with the same
contents — and the keyed branch builds a fresh dict by comprehension; the
internal tables are never handed out and never written. Returns the
reference to the result (or the raised error) and the state after the
call. -/
def getRef (st : RefState) (device : Device) (args : List String) :
    Except PyErr Nat × RefState :=
  match assocLookup st.dataRefs device with
  | none => (.error (.keyError "missing dict key"), st)
  | some r =>
    if args.isEmpty then
      let (r2, h2) := st.heap.alloc (st.heap.mem r)
      (.ok r2, { st with heap := h2 })
    else if ¬ keysSubset args (st.heap.mem r).keys then
      (.error (.keyError "args is not a subset of the data keys"), st)
    else
      let t := st.heap.mem r
      let slice := args.foldl (fun acc k =>
        match assocLookup t k with
        | some v => assocSet acc k v
        | none => acc) []
      let (r2, h2) := st.heap.alloc slice
      (.ok r2, { st with heap := h2 })

end DataManager

/-- The store state the constructor was meant to build (every role of the
enumeration that `DEFAULTS` documents, at its default document): the
reference state used to exercise the operations on concrete inputs. -/
def st0 : DMState :=
  ⟨[], [(.SURFACE, surfaceDefaultTbl), (.ARDUINO_O, arduinoODefaultTbl),
        (.ARDUINO_I, arduinoIDefaultTbl)]⟩

/-- `st0` with the ramp key `T_HFP` moved off its default, to observe
whether a call restores defaults. -/
def st1000 : DMState :=
  ⟨[], [(.SURFACE, surfaceDefaultTbl),
        (.ARDUINO_O, assocSet arduinoODefaultTbl "T_HFP" (.int 1000)),
        (.ARDUINO_I, arduinoIDefaultTbl)]⟩

/-- Dispatching a non-empty kwargs list from surface raises the `ARDUINO_A`
attribute error on its first iteration, before touching any table. -/
theorem surfaceDispatch_cons (st : DMState) (k : String) (v : Val)
    (rest : List (String × Val)) :
    DataManager.surfaceDispatch st ((k, v) :: rest) =
      (st, some (.attributeError "ARDUINO_A")) := rfl

/-- Deleting a key absent from an object leaves it unchanged. -/
theorem delItem_of_not_mem (kvs : List (String × Val))
    (h : (kvs.map Prod.fst).contains "id" = false) :
    Arduino.delItem kvs "id" = kvs := by
  induction kvs with
  | nil => rfl
  | cons p rest ih =>
    simp only [List.map_cons, List.contains_cons, Bool.or_eq_false_iff] at h
    have hp : p.1 ≠ "id" := by
      intro he
      rw [he] at h
      simp at h
    have ht := ih h.2
    simp only [Arduino.delItem] at ht ⊢
    rw [List.filter_cons_of_pos, ht]
    simpa using hp

/-- C1: the role `data_manager.py` keys its tables by, `Device.ARDUINO_A`,
is not a member of the `Device` enumeration (whose peripheral members are
`ARDUINO_O = "A_O"` and `ARDUINO_I = "A_I"`), so the attribute lookup fails
and `DataManager.__init__` raises `AttributeError` — no store is ever built,
hence no table is ever keyed by an actual peripheral role. -/
theorem arduinoA_not_member_init_fails :
    Device.attr "ARDUINO_A" = none ∧
    Device.ARDUINO_O.value = "A_O" ∧ Device.ARDUINO_I.value = "A_I" ∧
    DataManager.init = .error (.attributeError "ARDUINO_A") :=
  ⟨rfl, rfl, rfl, rfl⟩

/-- C2 (failing input `DataManager()`): construction raises the `ARDUINO_A`
attribute error, so there is no post-construction store on which `get` could
return the default documents that the repository's own
`test_getting_default_values` expects. -/
theorem init_raises_attribute_error :
    DataManager.init = .error (.attributeError "ARDUINO_A") := rfl

/-- C3 counterexample: with `T_HFP` stored at its default 1500 and incoming
target 0, one surface `set` does not move the value one step to 1498 — it
raises the `ARDUINO_A` attribute error and leaves the whole store unchanged,
the stored value still 1500. -/
theorem surface_ramp_set_raises_cex :
    (DataManager.set st0 .SURFACE false [("T_HFP", .int 0)]).err =
      some (.attributeError "ARDUINO_A") ∧
    (DataManager.set st0 .SURFACE false [("T_HFP", .int 0)]).state = st0 ∧
    DataManager.get (DataManager.set st0 .SURFACE false [("T_HFP", .int 0)]).state
      .ARDUINO_O ["T_HFP"] = .ok [("T_HFP", .int 1500)] :=
  ⟨rfl, rfl, rfl⟩

/-- C3 amended: a surface `set` with any non-empty update list raises the
`ARDUINO_A` attribute error on its first key and leaves every table of the
store unchanged; no ramp stepping (and no convergence) ever happens. -/
theorem surface_set_nonempty_raises_unchanged (st : DMState)
    (kvs : List (String × Val)) (h : kvs ≠ []) :
    (DataManager.set st .SURFACE false kvs).state = st ∧
    (DataManager.set st .SURFACE false kvs).err = some (.attributeError "ARDUINO_A") := by
  match kvs with
  | [] => exact absurd rfl h
  | (k, v) :: rest => exact ⟨rfl, rfl⟩

/-- C3 witness. -/
theorem surface_set_nonempty_raises_unchanged_witness :
    (DataManager.set st0 .SURFACE false [("T_HFP", .int 1499)]).state = st0 ∧
    (DataManager.set st0 .SURFACE false [("T_HFP", .int 1499)]).err =
      some (.attributeError "ARDUINO_A") :=
  surface_set_nonempty_raises_unchanged st0 [("T_HFP", .int 1499)] (by decide)

/-- C4 counterexample: with `T_HFP` stored at 1000 (default 1500),
`set(Surface, resetToDefault=true)` does not replace the peripheral table by
its default document — it raises the `ARDUINO_A` attribute error and the
stored value is still 1000 afterwards. -/
theorem reset_default_surface_raises_cex :
    (DataManager.set st1000 .SURFACE true []).err = some (.attributeError "ARDUINO_A") ∧
    (DataManager.set st1000 .SURFACE true []).state = st1000 ∧
    DataManager.get (DataManager.set st1000 .SURFACE true []).state
      .ARDUINO_O ["T_HFP"] = .ok [("T_HFP", .int 1000)] :=
  ⟨rfl, rfl, rfl⟩

/-- C4 amended: `set(Surface, resetToDefault=true)` raises the `ARDUINO_A`
attribute error while evaluating the right-hand side of the reset assignment,
before replacing anything: whatever the prior state and the (ignored or not)
updates, every table is left exactly as it was. -/
theorem set_default_surface_raises_unchanged (st : DMState)
    (kwargs : List (String × Val)) :
    DataManager.set st .SURFACE true kwargs =
      ⟨[⟨.debug, "Setting data manager values from SURFACE"⟩,
        ⟨.debug, "Setting the values to default"⟩],
       st, some (.attributeError "ARDUINO_A")⟩ := rfl

/-- C5 counterexample: a surface `set` whose single update key `bogus` is
absent from the target peripheral table does not fail with an unknown-key
`KeyError` — it raises the `ARDUINO_A` `AttributeError` (the same one every
surface update raises, valid keys included). -/
theorem unknown_key_surface_set_wrong_error_cex :
    (DataManager.set st0 .SURFACE false [("bogus", .int 1)]).err =
      some (.attributeError "ARDUINO_A") ∧
    (DataManager.set st0 .SURFACE false [("bogus", .int 1)]).state = st0 :=
  ⟨rfl, rfl⟩

/-- C5 amended: `get` with a key outside the role's table, and a
peripheral-role `set` with a key outside the surface table, fail with an
unknown-key `KeyError` and leave every table unchanged (both check the whole
key set before mutating); a surface-role `set` with any non-empty updates
instead fails with the `ARDUINO_A` attribute error, also leaving every table
unchanged. -/
theorem unknown_key_calls_raise_and_preserve :
    (∀ (st : DMState) (dev : Device) (t : Table) (args : List String),
      assocLookup st.data dev = some t → args ≠ [] →
      keysSubset args t.keys = false →
      DataManager.get st dev args =
        .error (.keyError "args is not a subset of the data keys")) ∧
    (∀ (st : DMState) (role : Device) (tS : Table) (kvs : List (String × Val)),
      role ≠ .SURFACE → assocLookup st.data .SURFACE = some tS →
      keysSubset (kvs.map Prod.fst) tS.keys = false →
      DataManager.set st role false kvs =
        ⟨[⟨.debug, "Setting data manager values from " ++ role.name⟩], st,
         some (.keyError "kwargs is not a subset of the surface dictionary")⟩) ∧
    (∀ (st : DMState) (k : String) (v : Val) (rest : List (String × Val)),
      DataManager.set st .SURFACE false ((k, v) :: rest) =
        ⟨[⟨.debug, "Setting data manager values from SURFACE"⟩], st,
         some (.attributeError "ARDUINO_A")⟩) := by
  refine ⟨?_, ?_, ?_⟩
  · intro st dev t args hl hne hsub
    match args with
    | [] => exact absurd rfl hne
    | a :: as =>
      simp only [DataManager.get, hl, List.isEmpty_cons, hsub]
      simp
  · intro st role tS kvs hrole hl hsub
    simp only [DataManager.set, if_neg hrole, if_neg (Bool.false_ne_true),
      DataManager.arduinoOverride, hl, hsub]
    simp
  · intro st k v rest
    rfl

/-- C5 witness. -/
theorem unknown_key_calls_raise_and_preserve_witness :
    DataManager.get st0 .ARDUINO_O ["bogus"] =
      .error (.keyError "args is not a subset of the data keys") ∧
    DataManager.set st0 .ARDUINO_O false [("bogus", .int 1)] =
      ⟨[⟨.debug, "Setting data manager values from ARDUINO_O"⟩], st0,
       some (.keyError "kwargs is not a subset of the surface dictionary")⟩ ∧
    DataManager.set st0 .SURFACE false [("bogus", .int 1)] =
      ⟨[⟨.debug, "Setting data manager values from SURFACE"⟩], st0,
       some (.attributeError "ARDUINO_A")⟩ :=
  ⟨unknown_key_calls_raise_and_preserve.1 st0 .ARDUINO_O arduinoODefaultTbl ["bogus"]
     rfl (by decide) (by decide),
   unknown_key_calls_raise_and_preserve.2.1 st0 .ARDUINO_O surfaceDefaultTbl
     [("bogus", .int 1)] (by decide) rfl (by decide),
   unknown_key_calls_raise_and_preserve.2.2 st0 "bogus" (.int 1) []⟩

/-- A `set` from a peripheral role whose update keys are not all surface-table
keys raises the unknown-key `KeyError` before assigning anything. -/
theorem set_peripheral_unknown_key (st : DMState) (role : Device) (tS : Table)
    (kvs : List (String × Val)) (hrole : role ≠ .SURFACE)
    (hl : assocLookup st.data .SURFACE = some tS)
    (hsub : keysSubset (kvs.map Prod.fst) tS.keys = false) :
    DataManager.set st role false kvs =
      ⟨[⟨.debug, "Setting data manager values from " ++ role.name⟩], st,
       some (.keyError "kwargs is not a subset of the surface dictionary")⟩ := by
  simp only [DataManager.set, if_neg hrole, if_neg (Bool.false_ne_true),
    DataManager.arduinoOverride, hl, hsub]
  simp

/-- C6 counterexample: a streaming-phase iteration of a Peripheral Link whose
frame carries a valid matching id and one key unknown to the surface table:
the Store merge raises the unknown-key `KeyError`, which no handler in
`Arduino._communicate` catches — the outcome is an escaped exception, the
loop and its thread terminate, and no snapshot is written. -/
theorem arduino_merge_error_kills_loop_cex :
    Arduino.communicateStep st0 .ARDUINO_O
      (.object [("id", .str "A_O"), ("bogus", .int 5)]) =
      .raised st0 (.keyError "kwargs is not a subset of the surface dictionary") := by
  decide

/-- C6 amended: a domain error raised by the Store merge is NOT handled
recoverably by either exchange loop: in a Peripheral Link's streaming phase
an unknown update key makes the iteration end in an escaped `KeyError`
(terminating the loop and its thread, with no write-back), and in the
Surface Link's loop every merge of a non-empty object ends in the escaped
`ARDUINO_A` `AttributeError` likewise terminating the loop. -/
theorem merge_errors_terminate_link_loops :
    (∀ (st : DMState) (device : Device) (tS : Table) (kvs : List (String × Val)),
      device ≠ .SURFACE →
      assocLookup st.data .SURFACE = some tS →
      (kvs.map Prod.fst).contains "id" = false →
      keysSubset (kvs.map Prod.fst) tS.keys = false →
      Arduino.communicateStep st device (.object (("id", .str device.value) :: kvs)) =
        .raised st (.keyError "kwargs is not a subset of the surface dictionary")) ∧
    (∀ (st : DMState) (k : String) (v : Val) (rest : List (String × Val)),
      Server.communicateStep st (.object ((k, v) :: rest)) =
        .raised st (.attributeError "ARDUINO_A")) := by
  constructor
  · intro st device tS kvs hdev hl hid hsub
    have hdel : Arduino.delItem (("id", Val.str device.value) :: kvs) "id" = kvs := by
      have h2 := delItem_of_not_mem kvs hid
      simp only [Arduino.delItem] at h2 ⊢
      rw [List.filter_cons_of_neg, h2]
      simp
    have hset := set_peripheral_unknown_key st device tS kvs hdev hl hsub
    simp only [Arduino.communicateStep, assocLookup, if_pos rfl, hdel, hset]
    simp
  · intro st k v rest
    rfl

/-- C6 witness. -/
theorem merge_errors_terminate_link_loops_witness :
    Arduino.communicateStep st0 .ARDUINO_I
      (.object [("id", .str "A_I"), ("depth", .int 3)]) =
      .raised st0 (.keyError "kwargs is not a subset of the surface dictionary") ∧
    Server.communicateStep st0 (.object [("T_HFP", .int 1400)]) =
      .raised st0 (.attributeError "ARDUINO_A") :=
  ⟨merge_errors_terminate_link_loops.1 st0 .ARDUINO_I surfaceDefaultTbl
     [("depth", .int 3)] (by decide) rfl (by decide) (by decide),
   merge_errors_terminate_link_loops.2 st0 "T_HFP" (.int 1400) []⟩

/-- C7 counterexample: `set(ARDUINO_O, resetToDefault=true)` on the reference
state completes normally — the returned result carries no exception
(`err = none`), so nothing is reported *to the caller*; the failure is only
recorded as an error-level log entry. -/
theorem peripheral_reset_returns_silently_cex :
    DataManager.set st0 .ARDUINO_O true [] =
      ⟨[⟨.debug, "Setting data manager values from ARDUINO_O"⟩,
        ⟨.debug, "Setting the values to default"⟩,
        ⟨.error, "Setting the default values is only supported for surface, not ARDUINO_O"⟩],
       st0, none⟩ := rfl

/-- C7 amended: for every peripheral role, `set(role, resetToDefault=true)`
performs no reset and leaves every table of the Store unchanged; the failure
is reported as an error-severity log entry (not silently ignored, not fatal)
while the call itself returns normally, raising nothing to the caller. -/
theorem peripheral_reset_logs_error_not_fatal (st : DMState)
    (kwargs : List (String × Val)) (role : Device)
    (h : role = .ARDUINO_O ∨ role = .ARDUINO_I) :
    DataManager.set st role true kwargs =
      ⟨[⟨.debug, "Setting data manager values from " ++ role.name⟩,
        ⟨.debug, "Setting the values to default"⟩,
        ⟨.error, "Setting the default values is only supported for surface, not " ++ role.name⟩],
       st, none⟩ := by
  rcases h with h | h <;> subst h <;> rfl

/-- C7 witness. -/
theorem peripheral_reset_logs_error_not_fatal_witness :
    DataManager.set st1000 .ARDUINO_I true [("T_M", .int 0)] =
      ⟨[⟨.debug, "Setting data manager values from ARDUINO_I"⟩,
        ⟨.debug, "Setting the values to default"⟩,
        ⟨.error, "Setting the default values is only supported for surface, not ARDUINO_I"⟩],
       st1000, none⟩ :=
  peripheral_reset_logs_error_not_fatal st1000 [("T_M", .int 0)] .ARDUINO_I (Or.inr rfl)

/-- C8: in a surface-session iteration whose payload fails JSON decoding or
decodes to a non-object, the merge is skipped — the Store is exactly
unchanged — and the reply sent to the client is still the full current
surface table. -/
theorem malformed_payload_skips_merge_still_replies (st : DMState) (t : Table)
    (h : assocLookup st.data .SURFACE = some t) :
    Server.communicateStep st .malformed = .sent st t ∧
    Server.communicateStep st .nonObject = .sent st t := by
  constructor <;>
    simp [Server.communicateStep, Server.sendSnapshot, DataManager.get, h]

/-- C8 witness. -/
theorem malformed_payload_skips_merge_still_replies_witness :
    Server.communicateStep st0 .malformed = .sent st0 surfaceDefaultTbl ∧
    Server.communicateStep st0 .nonObject = .sent st0 surfaceDefaultTbl :=
  malformed_payload_skips_merge_still_replies st0 surfaceDefaultTbl rfl

/-- C9 counterexample: starting from the reference state (ramp key `T_HFP`
at its default d = 1500), the sequence reset; set with target 0; reset does
not leave the stored value at the stepped value d - step = 1498 as claimed:
the very first reset raises the `ARDUINO_A` attribute error, every call of
the sequence leaves the store untouched, and the final value is still the
construction-time default 1500. -/
theorem reset_update_reset_cex :
    (DataManager.set st0 .SURFACE true []).err = some (.attributeError "ARDUINO_A") ∧
    (DataManager.set (DataManager.set (DataManager.set st0 .SURFACE true []).state
        .SURFACE false [("T_HFP", .int 0)]).state .SURFACE true []).state = st0 ∧
    DataManager.get
      ((DataManager.set (DataManager.set (DataManager.set st0 .SURFACE true []).state
          .SURFACE false [("T_HFP", .int 0)]).state .SURFACE true []).state)
      .ARDUINO_O ["T_HFP"] = .ok [("T_HFP", .int 1500)] :=
  ⟨rfl, rfl, rfl⟩

/-- C9 amended: the aliasing scenario is unreachable — `set(Surface,
resetToDefault=true)` raises the `ARDUINO_A` attribute error before the
non-copying assignment of the default document, so the default document is
never shared into the store, and a reset; update; reset sequence leaves
every table exactly as it started. -/
theorem reset_sequence_never_aliases (st : DMState) (k : String) (v : Val) :
    (DataManager.set st .SURFACE true []).state = st ∧
    (DataManager.set st .SURFACE true []).err = some (.attributeError "ARDUINO_A") ∧
    (DataManager.set (DataManager.set (DataManager.set st .SURFACE true []).state
        .SURFACE false [(k, v)]).state .SURFACE true []).state = st :=
  ⟨rfl, rfl, rfl⟩


/-- C10: whatever the role and argument list, `get` leaves every table of
the Store holding exactly the document it held before the call (also on the
unknown-key error paths, which return before any allocation), and on
success the returned dict is a fresh reference, distinct from every internal
table reference — so mutating the returned dict, modelled as a heap write at
the returned reference, never changes any table of the Store. -/
theorem get_fresh_copy_preserves_tables (st : RefState) (device : Device)
    (args : List String) (hwf : st.wf) :
    (∀ d, (DataManager.getRef st device args).2.tableAt d = st.tableAt d) ∧
    (∀ n, (DataManager.getRef st device args).1 = .ok n →
      (∀ d r, assocLookup (DataManager.getRef st device args).2.dataRefs d = some r → r ≠ n) ∧
      (∀ t d, (RefState.mk (DataManager.getRef st device args).2.dataRefs
          ((DataManager.getRef st device args).2.heap.write n t)).tableAt d =
        st.tableAt d)) := by
  have hfresh : ∀ d r', assocLookup st.dataRefs d = some r' → r' ≠ st.heap.size :=
    fun d r' hd => Nat.ne_of_lt (hwf d r' hd)
  have halloc1 : ∀ (tbl : Table) (d : Device),
      RefState.tableAt { st with heap := (st.heap.alloc tbl).2 } d = st.tableAt d := by
    intro tbl d
    cases hd : assocLookup st.dataRefs d with
    | none => simp [RefState.tableAt, hd]
    | some rd => simp [RefState.tableAt, hd, Heap.alloc, hfresh d rd hd]
  have halloc2 : ∀ (tbl t : Table) (d : Device),
      RefState.tableAt
        (RefState.mk st.dataRefs (((st.heap.alloc tbl).2).write st.heap.size t)) d =
      st.tableAt d := by
    intro tbl t d
    cases hd : assocLookup st.dataRefs d with
    | none => simp [RefState.tableAt, hd]
    | some rd => simp [RefState.tableAt, hd, Heap.alloc, Heap.write, hfresh d rd hd]
  cases hdev : assocLookup st.dataRefs device with
  | none =>
    refine ⟨fun d => ?_, fun n hn => ?_⟩
    · simp [DataManager.getRef, hdev]
    · simp [DataManager.getRef, hdev] at hn
  | some r =>
    by_cases hemp : args.isEmpty
    · have hget : DataManager.getRef st device args =
          (.ok st.heap.size, { st with heap := (st.heap.alloc (st.heap.mem r)).2 }) := by
        simp [DataManager.getRef, hdev, hemp, Heap.alloc]
      rw [hget]
      refine ⟨halloc1 _, fun n hn => ?_⟩
      have hn' : st.heap.size = n := by simpa using hn
      subst hn'
      exact ⟨fun d rd hd => hfresh d rd hd, fun t d => halloc2 _ t d⟩
    · by_cases hsub : keysSubset args (st.heap.mem r).keys
      · have hget : DataManager.getRef st device args =
            (.ok st.heap.size,
             { st with heap := (st.heap.alloc
                 (args.foldl (fun acc k =>
                   match assocLookup (st.heap.mem r) k with
                   | some v => assocSet acc k v
                   | none => acc) [])).2 }) := by
          simp [DataManager.getRef, hdev, hemp, hsub, Heap.alloc]
          try rfl
        rw [hget]
        refine ⟨halloc1 _, fun n hn => ?_⟩
        have hn' : st.heap.size = n := by simpa using hn
        subst hn'
        exact ⟨fun d rd hd => hfresh d rd hd, fun t d => halloc2 _ t d⟩
      · have hget : DataManager.getRef st device args =
            (.error (.keyError "args is not a subset of the data keys"), st) := by
          simp [DataManager.getRef, hdev, hemp, hsub]
        rw [hget]
        refine ⟨fun d => rfl, fun n hn => ?_⟩
        simp at hn

/-- A concrete well-formed reference state: the surface and outer-Arduino
tables live at heap references 0 and 1 of a heap of size 2. -/
def wheap : Heap :=
  ⟨2, fun i => if i = 0 then surfaceDefaultTbl else if i = 1 then arduinoODefaultTbl else []⟩

/-- Reference-state counterpart of `st0` for the object-level model. -/
def wst : RefState := ⟨[(.SURFACE, 0), (.ARDUINO_O, 1)], wheap⟩

/-- `wst` satisfies the heap invariant. -/
theorem wst_wf : wst.wf := by
  intro d r h
  show r < 2
  cases d <;> simp [wst, assocLookup] at h <;> omega

/-- C10 witness. -/
theorem get_fresh_copy_preserves_tables_witness :
    (DataManager.getRef wst .SURFACE []).2.tableAt .ARDUINO_O =
      wst.tableAt .ARDUINO_O ∧
    (DataManager.getRef wst .ARDUINO_O ["bogus"]).2.tableAt .SURFACE =
      wst.tableAt .SURFACE :=
  ⟨(get_fresh_copy_preserves_tables wst .SURFACE [] wst_wf).1 .ARDUINO_O,
   (get_fresh_copy_preserves_tables wst .ARDUINO_O ["bogus"] wst_wf).1 .SURFACE⟩
